import Mathlib

/-!
Shallow embedding of `mstranslator.py` (package `mstranslator`): a client
wrapper around the Microsoft Translator HTTP API.  Network interactions are
modelled by passing the server's response as an explicit argument; time is
modelled as a `Nat` (seconds); mutable object state is passed explicitly.
Python exceptions are modelled by the `Except` monad over `PyErr`.
-/

namespace Mstranslator

/-- The Python exceptions that the module can raise.
`accessError` models `AccessError` (carries the HTTP status code and the
`message` field of the JSON error body); `argumentOutOfRangeException` and
`translateApiException` model the two typed remote-API exceptions (carrying
their `message` attribute); `valueError` models `ValueError`;
`keyError` models the `KeyError` raised by `data["message"]` when the JSON
body has no `message` field; `typeError` models the `TypeError` raised by
an order comparison against `None`; `attributeError` models the
`AttributeError` raised by looking up a missing attribute. -/
inductive PyErr where
  | valueError (msg : String)
  | accessError (status_code : Nat) (message : String)
  | keyError
  | typeError
  | attributeError
  | argumentOutOfRangeException (message : List Char)
  | translateApiException (message : List Char)
  deriving Repr, DecidableEq

/-- Python truthiness of an optional string: `not x` is true for `None`
and for the empty string. -/
def pyFalsy : Option String → Bool
  | none => true
  | some s => decide (s = "")

/-- Fuel-indexed worker for `pyReplace`; the fuel is an upper bound on the
length of the remaining string, so it never runs out before the string does. -/
def pyReplaceAux (pat rep : List Char) : Nat → List Char → List Char
  | 0, s => s
  | _ + 1, [] => []
  | fuel + 1, c :: rest =>
    if pat.isPrefixOf (c :: rest) then
      rep ++ pyReplaceAux pat rep fuel ((c :: rest).drop pat.length)
    else
      c :: pyReplaceAux pat rep fuel rest

/-- Python `s.replace(pat, rep)`: replaces every (left-to-right,
non-overlapping) occurrence of `pat` in `s` by `rep`.  The source only calls
it with non-empty patterns; for an empty pattern we return `s` unchanged. -/
def pyReplace (s pat rep : List Char) : List Char :=
  if pat = [] then s else pyReplaceAux pat rep s.length s

/-- `ArgumentOutOfRangeException.__init__`:
`self.message = message.replace('ArgumentOutOfRangeException: ', '')`. -/
def argumentOutOfRangeMessage (message : List Char) : List Char :=
  pyReplace message ("ArgumentOutOfRangeException: ".data) []

/-- `TranslateApiException.__init__`:
`self.message = message.replace('TranslateApiException: ', '')`. -/
def translateApiMessage (message : List Char) : List Char :=
  pyReplace message ("TranslateApiException: ".data) []

/-- The response of the authentication endpoint, as far as the client reads
it: `status_code`, the raw body `text`, and `message` — the `"message"`
field of the JSON body when the body decodes to an object carrying one
(`AccessError.__init__` reads `response.json()["message"]`). -/
structure AuthResponse where
  status_code : Nat
  text : String
  message : Option String := none
  deriving Repr, DecidableEq

/-- The mutable state of an `AccessToken` object: the subscription key and
the two nullable fields `_token` and `_expdate` (both `None` after
`__init__`). -/
structure AccessToken where
  subscription_key : String
  _token : Option String := none
  _expdate : Option Nat := none
  deriving Repr, DecidableEq

namespace AccessToken

/-- `expire_delta = datetime.timedelta(minutes=9)`, in seconds. -/
def expire_delta : Nat := 9 * 60

/-- `AccessToken.request_token(self)`: POSTs to the authentication endpoint.
On status 200 it stores the raw body as `_token` and sets
`_expdate = now + expire_delta`; otherwise it raises
`AccessError(resp)`, which reads the status code and the `message` field of
the JSON body (raising `KeyError` if that field is missing).  Returns the
outcome together with the (possibly updated) object state. -/
def request_token (a : AccessToken) (now : Nat) (resp : AuthResponse) :
    Except PyErr Unit × AccessToken :=
  if resp.status_code = 200 then
    (.ok (), { a with _token := some resp.text,
                      _expdate := some (now + expire_delta) })
  else
    match resp.message with
    | some m => (.error (.accessError resp.status_code m), a)
    | none => (.error .keyError, a)

/-- `AccessToken.expired`: `datetime.datetime.now() > self._expdate`.
When `_expdate` is `None` the comparison raises `TypeError`. -/
def expired (a : AccessToken) (now : Nat) : Except PyErr Bool :=
  match a._expdate with
  | none => .error .typeError
  | some e => .ok (decide (e < now))

/-- `AccessToken.token`:
`if not self._token or self.expired: self.request_token()`;
`return self._token`.  The `or` short-circuits: `expired` is only evaluated
when `_token` is truthy.  Returns the token together with the (possibly
updated) object state; on an exception the state is unchanged. -/
def token (a : AccessToken) (now : Nat) (resp : AuthResponse) :
    Except PyErr (String × AccessToken) :=
  if pyFalsy a._token then
    match request_token a now resp with
    | (.ok _, a2) => .ok (a2._token.getD "", a2)
    | (.error e, _) => .error e
  else
    match expired a now with
    | .error e => .error e
    | .ok true =>
      match request_token a now resp with
      | (.ok _, a2) => .ok (a2._token.getD "", a2)
      | (.error e, _) => .error e
    | .ok false => .ok (a._token.getD "", a)

/-- The `AccessToken` states reachable through the class's own interface:
the freshly constructed state, and any state produced by a call to the
`token` property or to `request_token` (a raised exception leaves the state
unchanged, so only successful-result states add anything new). -/
inductive Reachable : AccessToken → Prop where
  | init (k : String) : Reachable { subscription_key := k }
  | tokenStep (a : AccessToken) (now : Nat) (resp : AuthResponse)
      (t : String) (a2 : AccessToken) :
      Reachable a → token a now resp = .ok (t, a2) → Reachable a2
  | requestStep (a : AccessToken) (now : Nat) (resp : AuthResponse)
      (r : Except PyErr Unit) (a2 : AccessToken) :
      Reachable a → request_token a now resp = (r, a2) → Reachable a2

end AccessToken

/-- A decoded JSON value, as `resp.json()` returns it: a string, a list, an
object, a number, a boolean or null.  (Strings are `List Char` so that the
character-level operations of the source can be modelled exactly.) -/
inductive JsonData where
  | str (s : List Char)
  | list (xs : List JsonData)
  | obj (kvs : List (String × JsonData))
  | num (n : Int)
  | bool (b : Bool)
  | null
  deriving Repr

/-- A value placed in a request-parameter mapping (Python stores strings and
ints there). -/
inductive PVal where
  | str (s : String)
  | int (n : Int)
  deriving Repr, DecidableEq

/-- A Python numeric argument: an `int` or a `float` (the float's exact
rational value — every binary float is rational, and the source only
compares it against integers). -/
inductive PyNum where
  | int (n : Int)
  | float (q : ℚ)
  deriving Repr, DecidableEq

/-- The numeric value, for order comparisons. -/
def PyNum.val : PyNum → ℚ
  | .int n => (n : ℚ)
  | .float q => q

/-- `isinstance(x, int)`. -/
def PyNum.isInt : PyNum → Bool
  | .int _ => true
  | .float _ => false

/-- JSON string escaping of one character, as `json.dumps` performs it. -/
def jsonEscapeChar (c : Char) : List Char :=
  if c = '\\' then ['\\', '\\']
  else if c = '"' then ['\\', '"']
  else if c = '\n' then ['\\', 'n']
  else if c = '\t' then ['\\', 't']
  else if c = '\r' then ['\\', 'r']
  else [c]

/-- `json.dumps` of a list of strings (default separators). -/
def jsonDumps (texts : List String) : String :=
  "[" ++ String.intercalate ", "
    (texts.map fun s =>
      "\"" ++ String.mk (s.data.flatMap jsonEscapeChar) ++ "\"") ++ "]"

namespace Translator

/-- `Translator.make_response(self, resp)` applied to the decoded JSON body:
a string beginning with `"ArgumentOutOfRangeException"` raises
`ArgumentOutOfRangeException(data)`, a string beginning with
`"TranslateApiException"` raises `TranslateApiException(data)` (each
constructor stores the message with the tag text replaced away);
every other value is returned as-is. -/
def make_response (data : JsonData) : Except PyErr JsonData :=
  match data with
  | .str s =>
    if ("ArgumentOutOfRangeException".data).isPrefixOf s then
      .error (.argumentOutOfRangeException (argumentOutOfRangeMessage s))
    else if ("TranslateApiException".data).isPrefixOf s then
      .error (.translateApiException (translateApiMessage s))
    else
      .ok data
  | d => .ok d

/-- `Translator._translate`: validates `lang_to` (must be truthy) and
`contenttype` (must be `text/plain` or `text/html`), then builds the
parameter mapping (`from` only when `lang_from` is truthy, the text
parameters appended last) and proceeds to `make_request`.  The successful
result is the action name and parameter mapping of the request that is
issued; an error is raised before any network call. -/
def _translate (action : String) (text_params : List (String × PVal))
    (lang_from lang_to : Option String) (contenttype category : String) :
    Except PyErr (String × List (String × PVal)) :=
  if pyFalsy lang_to then
    .error (.valueError "lang_to parameter is required")
  else if ¬(contenttype = "text/plain" ∨ contenttype = "text/html") then
    .error (.valueError "Invalid contenttype value")
  else
    .ok (action,
      [("to", .str (lang_to.getD "")),
       ("contentType", .str contenttype),
       ("category", .str category)] ++
      (if pyFalsy lang_from then [] else [("from", .str (lang_from.getD ""))]) ++
      text_params)

/-- `Translator.translate`. -/
def translate (text : String) (lang_from : Option String := none)
    (lang_to : Option String := none) (contenttype : String := "text/plain")
    (category : String := "general") :
    Except PyErr (String × List (String × PVal)) :=
  _translate "Translate" [("text", .str text)] lang_from lang_to
    contenttype category

/-- `Translator.translate_array`. -/
def translate_array (texts : List String := []) (lang_from : Option String := none)
    (lang_to : Option String := none) (contenttype : String := "text/plain")
    (category : String := "general") :
    Except PyErr (String × List (String × PVal)) :=
  _translate "TranslateArray" [("texts", .str (jsonDumps texts))] lang_from
    lang_to contenttype category

/-- `Translator.translate_array2`. -/
def translate_array2 (texts : List String := []) (lang_from : Option String := none)
    (lang_to : Option String := none) (contenttype : String := "text/plain")
    (category : String := "general") :
    Except PyErr (String × List (String × PVal)) :=
  _translate "TranslateArray2" [("texts", .str (jsonDumps texts))] lang_from
    lang_to contenttype category

/-- Python slicing `text[a:b]` for non-negative bounds: the characters from
index `a` (inclusive) to `b` (exclusive), clamped to the string's length. -/
def pySlice (text : List Char) (a b : Nat) : List Char :=
  (text.take b).drop a

/-- The slicing loop of `break_sentences`:
`for i in lengths: result.append(text[c:c + i]); c += i`. -/
def sliceLoop (text : List Char) : Nat → List Nat → List (List Char)
  | _, [] => []
  | c, i :: rest => pySlice text c (c + i) :: sliceLoop text (c + i) rest

/-- `Translator.break_sentences(self, text, lang)`: raises `ValueError` when
`len(text) > 10000` (before the network call); otherwise requests
`BreakSentences` — the server's reply, a list of sentence lengths, is the
explicit argument `lengths` — and slices `text` sequentially at those
lengths. -/
def break_sentences (text : List Char) (lengths : List Nat) :
    Except PyErr (List (List Char)) :=
  if text.length > 10000 then
    .error (.valueError "The text maximum length is 10000 characters")
  else
    .ok (sliceLoop text 0 lengths)

/-- `Translator.add_translation`: validates the two text lengths, the
content type, and the rating (`not -10 < rating < 10 or
not isinstance(rating, int)` raises `ValueError`), then builds the
`AddTranslation` parameter mapping (`uri` appended only when `url` is
truthy).  The successful result is the parameter mapping of the request
that is issued. -/
def add_translation (text_orig text_trans lang_from lang_to user : String)
    (rating : PyNum := .int 1) (contenttype : String := "text/plain")
    (category : String := "general") (url : Option String := none) :
    Except PyErr (String × List (String × PVal)) :=
  if text_orig.length > 1000 then
    .error (.valueError "The original text maximum length is 1000 characters")
  else if text_trans.length > 2000 then
    .error (.valueError "The translated text maximum length is 1000 characters")
  else if ¬(contenttype = "text/plain" ∨ contenttype = "text/html") then
    .error (.valueError "Invalid contenttype value")
  else if ¬(-10 < rating.val ∧ rating.val < 10) ∨ rating.isInt = false then
    .error (.valueError "Raiting must be an integer value between -10 and 10")
  else
    .ok ("AddTranslation",
      [("originalText", .str text_orig),
       ("translatedText", .str text_trans),
       ("from", .str lang_from),
       ("to", .str lang_to),
       ("user", .str user),
       ("contentType", .str contenttype),
       ("rating", .int (match rating with | .int n => n | .float _ => 0)),
       ("category", .str category)] ++
      (if pyFalsy url then [] else [("uri", .str (url.getD ""))]))

/-- The destination argument of `speak_to_file`: an instance of
`basestring` (a file path), an object carrying a `write` attribute
(a writable sink, identified by a tag), or anything else. -/
inductive FileArg where
  | path (p : String)
  | sink (id : Nat)
  | other
  deriving Repr, DecidableEq

/-- `hasattr(file, 'write')`: only the sink objects carry a `write`
attribute; Python `str` objects do not. -/
def hasattrWrite : FileArg → Bool
  | .sink _ => true
  | _ => false

/-- Python `str` defines no `write` method, so the attribute lookup
`file.write` on a string raises `AttributeError`. -/
def strHasWrite : Bool := false

/-- `Translator.speak_to_file(self, file, *args, **kwargs)` with the audio
bytes fetched from the URL returned by `speak` supplied as `content`.
Returns the outcome, the list of paths opened (and truncated) by
`open(file, 'wb')`, and the `write` calls performed (sink tag, bytes).

The source reads, for a string destination:
`with open(file, 'wb'): file.write(resp.content)` — the opened handle is
never bound (no `as f`), so `write` is looked up on the string `file`
itself. -/
def speak_to_file (file : FileArg) (content : List Nat) :
    Except PyErr Unit × List String × List (Nat × List Nat) :=
  match file with
  | .path p =>
    if strHasWrite then
      (.ok (), [p], [])
    else
      (.error .attributeError, [p], [])
  | .sink i => (.ok (), [], [(i, content)])
  | .other => (.error (.valueError "Expected filepath or a file-like object"), [], [])

end Translator

/-! ## Helper lemmas -/

theorem sliceLoop_length (text : List Char) (L : List Nat) :
    ∀ c, (Translator.sliceLoop text c L).length = L.length := by
  induction L with
  | nil => intro c; rfl
  | cons i rest ih =>
    intro c
    simp [Translator.sliceLoop, ih]

theorem sliceLoop_flatten (text : List Char) (L : List Nat) :
    ∀ c, (Translator.sliceLoop text c L).flatten = (text.drop c).take L.sum := by
  induction L with
  | nil => intro c; simp [Translator.sliceLoop]
  | cons i rest ih =>
    intro c
    have hdrop : text.drop (c + i) = (text.drop c).drop i := by
      rw [List.drop_drop, Nat.add_comm]
    simp only [Translator.sliceLoop, Translator.pySlice, List.flatten_cons, ih,
      List.drop_take, Nat.add_sub_cancel_left, hdrop, List.sum_cons]
    rw [List.take_add]

theorem take_min (text : List Char) (n : Nat) :
    text.take n = text.take (min text.length n) := by
  rcases Nat.le_total n text.length with h | h
  · rw [Nat.min_eq_right h]
  · rw [Nat.min_eq_left h, List.take_of_length_le h, List.take_length]

theorem request_token_state (a : AccessToken) (now : Nat) (resp : AuthResponse) :
    (AccessToken.request_token a now resp).2 = a ∨
    (AccessToken.request_token a now resp).2._expdate =
      some (now + AccessToken.expire_delta) := by
  unfold AccessToken.request_token
  split
  · right; rfl
  · split <;> (left; rfl)

theorem request_token_error_shape (a : AccessToken) (now : Nat)
    (resp : AuthResponse) (e : PyErr) (b : AccessToken)
    (h : AccessToken.request_token a now resp = (.error e, b)) :
    e ≠ .typeError := by
  unfold AccessToken.request_token at h
  split at h
  · simp at h
  · split at h <;>
      (simp only [Prod.mk.injEq, Except.error.injEq] at h; rw [← h.1]; simp)

theorem token_state (a : AccessToken) (now : Nat) (resp : AuthResponse)
    (t : String) (a2 : AccessToken)
    (h : AccessToken.token a now resp = .ok (t, a2)) :
    a2 = a ∨ a2._expdate = some (now + AccessToken.expire_delta) := by
  have hstate := request_token_state a now resp
  rcases hr : AccessToken.request_token a now resp with ⟨r, a3⟩
  rw [hr] at hstate
  unfold AccessToken.token at h
  rw [hr] at h
  split at h
  · cases r with
    | ok u => simp only [Except.ok.injEq, Prod.mk.injEq] at h; rw [← h.2]; exact hstate
    | error e => simp at h
  · split at h
    · simp at h
    · cases r with
      | ok u => simp only [Except.ok.injEq, Prod.mk.injEq] at h; rw [← h.2]; exact hstate
      | error e => simp at h
    · simp only [Except.ok.injEq, Prod.mk.injEq] at h
      left; rw [← h.2]

theorem reachable_inv (a : AccessToken) (h : AccessToken.Reachable a) :
    a._expdate = none → a._token = none := by
  induction h with
  | init k => intro _; rfl
  | tokenStep a now resp t a2 hr heq ih =>
    rcases token_state a now resp t a2 heq with rfl | hsome
    · exact ih
    · intro hnone; rw [hnone] at hsome; exact absurd hsome (by simp)
  | requestStep a now resp r a2 hr heq ih =>
    rcases request_token_state a now resp with h1 | h1 <;> rw [heq] at h1
    · have h2 : a2 = a := h1
      rw [h2]; exact ih
    · have h2 : a2._expdate = some (now + AccessToken.expire_delta) := h1
      intro hnone; rw [hnone] at h2; exact absurd h2 (by simp)

/-! ## Claim theorems -/

/-- C1: token lifecycle.  With a cached (non-empty) token `t` and stored
expiration `e`, every access at a time `now ≤ e` returns `t` with the state
unchanged (so a token issued at `T`, whose expiration is `T + 9min`, is
reused for every access up to `T + 9min`, and is valid strictly before its
expiration); an access at `now > e` performs exactly one synchronous
re-issue, replacing both the cached token and the expiration with the fresh
token and `now + 9min` before returning; an access with the cached token
unset re-issues the same way. -/
theorem token_lifecycle (k t : String) (e now : Nat) (resp : AuthResponse)
    (ht : t ≠ "") (h200 : resp.status_code = 200) :
    (now ≤ e →
      AccessToken.token ⟨k, some t, some e⟩ now resp =
        .ok (t, ⟨k, some t, some e⟩)) ∧
    (e < now →
      AccessToken.token ⟨k, some t, some e⟩ now resp =
        .ok (resp.text,
          ⟨k, some resp.text, some (now + AccessToken.expire_delta)⟩)) ∧
    AccessToken.token ⟨k, none, some e⟩ now resp =
      .ok (resp.text,
        ⟨k, some resp.text, some (now + AccessToken.expire_delta)⟩) := by
  refine ⟨?_, ?_, ?_⟩
  · intro h
    simp [AccessToken.token, AccessToken.expired, pyFalsy, ht, Nat.not_lt.mpr h]
  · intro h
    simp [AccessToken.token, AccessToken.expired, AccessToken.request_token,
      pyFalsy, ht, h, h200]
  · simp [AccessToken.token, AccessToken.request_token, pyFalsy, h200]

/-- C1 witness: concrete runs of the three branches (reuse at `now = 50 ≤
100`, re-issue at `now = 700 > 100`, re-issue from the unset state). -/
theorem token_lifecycle_witness :
    AccessToken.token ⟨"k", some "tok", some 100⟩ 50 ⟨200, "fresh", none⟩ =
      .ok ("tok", ⟨"k", some "tok", some 100⟩) ∧
    AccessToken.token ⟨"k", some "tok", some 100⟩ 700 ⟨200, "fresh", none⟩ =
      .ok ("fresh", ⟨"k", some "fresh", some (700 + AccessToken.expire_delta)⟩) ∧
    AccessToken.token ⟨"k", none, some 100⟩ 50 ⟨200, "fresh", none⟩ =
      .ok ("fresh", ⟨"k", some "fresh", some (50 + AccessToken.expire_delta)⟩) :=
  ⟨(token_lifecycle "k" "tok" 100 50 ⟨200, "fresh", none⟩ (by decide) rfl).1
      (by decide),
   (token_lifecycle "k" "tok" 100 700 ⟨200, "fresh", none⟩ (by decide) rfl).2.1
      (by decide),
   (token_lifecycle "k" "tok" 100 50 ⟨200, "fresh", none⟩ (by decide) rfl).2.2⟩

/-- C5: for every authentication response with a status code other than 200
whose JSON body carries a `message` field, `request_token` raises an
`AccessError` carrying exactly that status code and exactly that message,
and the cached token and expiration are left unchanged. -/
theorem request_token_failure (a : AccessToken) (now : Nat)
    (resp : AuthResponse) (m : String)
    (hs : resp.status_code ≠ 200) (hm : resp.message = some m) :
    AccessToken.request_token a now resp =
      (.error (.accessError resp.status_code m), a) := by
  simp [AccessToken.request_token, hs, hm]

/-- C5 witness: a 403 response with body `{"message": "bad key"}` raises
`AccessError(403, "bad key")` and leaves the state untouched. -/
theorem request_token_failure_witness :
    AccessToken.request_token ⟨"k", none, none⟩ 0 ⟨403, "", some "bad key"⟩ =
      (.error (.accessError 403 "bad key"), ⟨"k", none, none⟩) :=
  request_token_failure ⟨"k", none, none⟩ 0 ⟨403, "", some "bad key"⟩ "bad key"
    (by decide) rfl

/-- C8: a 200 authentication response with an empty body stores the empty
string as the cached token; the `token` property treats the empty string
the same as an unset token, so every subsequent access re-issues a fresh
token regardless of the stored expiration (any `d`, in any relation to the
current time). -/
theorem empty_token_always_reissues (k : String) (a : AccessToken)
    (d : Option Nat) (now now2 : Nat) (resp resp2 : AuthResponse)
    (h1 : resp.status_code = 200) (h2 : resp.text = "")
    (h3 : resp2.status_code = 200) :
    AccessToken.request_token a now resp =
      (.ok (), { a with _token := some "",
                        _expdate := some (now + AccessToken.expire_delta) }) ∧
    AccessToken.token ⟨k, some "", d⟩ now2 resp2 =
      .ok (resp2.text,
        ⟨k, some resp2.text, some (now2 + AccessToken.expire_delta)⟩) := by
  constructor
  · simp [AccessToken.request_token, h1, h2]
  · simp [AccessToken.token, AccessToken.request_token, pyFalsy, h3]

/-- C8 witness: the empty body is cached as `""`, and an access with an
expiration far in the future (`10 ≤ 1000000`) still re-issues. -/
theorem empty_token_always_reissues_witness :
    AccessToken.request_token ⟨"k", none, none⟩ 0 ⟨200, "", none⟩ =
      (.ok (), ⟨"k", some "", some (0 + AccessToken.expire_delta)⟩) ∧
    AccessToken.token ⟨"k", some "", some 1000000⟩ 10 ⟨200, "t2", none⟩ =
      .ok ("t2", ⟨"k", some "t2", some (10 + AccessToken.expire_delta)⟩) :=
  empty_token_always_reissues "k" ⟨"k", none, none⟩ (some 1000000) 0 10
    ⟨200, "", none⟩ ⟨200, "t2", none⟩ rfl rfl rfl

/-- C9: on every `AccessToken` state reachable through the class's own
interface — including the freshly constructed state with both fields unset
— an access through the `token` property never raises the `TypeError` that
comparing the current time against an unset (`None`) expiration would
produce: the short-circuiting truthiness test on `_token` guards the
evaluation of `expired`, and whenever `_token` is truthy a previous
issuance has set `_expdate`. -/
theorem token_never_compares_none (a : AccessToken)
    (h : AccessToken.Reachable a) (now : Nat) (resp : AuthResponse) :
    AccessToken.token a now resp ≠ .error .typeError := by
  intro hbad
  have hinv := reachable_inv a h
  have hshape := request_token_error_shape a now resp
  rcases hr : AccessToken.request_token a now resp with ⟨r, a3⟩
  unfold AccessToken.token at hbad
  rw [hr] at hbad
  by_cases hf : pyFalsy a._token = true
  · rw [if_pos hf] at hbad
    cases r with
    | ok u => simp at hbad
    | error e =>
      simp only [Except.error.injEq] at hbad
      exact hshape e a3 hr (by rw [hbad])
  · rw [if_neg hf] at hbad
    have htok : a._token ≠ none := fun hnone => hf (by rw [hnone]; rfl)
    rcases hd : a._expdate with _ | e0
    · exact absurd (hinv hd) htok
    · rcases he : AccessToken.expired a now with eE | b
      · unfold AccessToken.expired at he
        rw [hd] at he
        simp at he
      · rw [he] at hbad
        cases b with
        | false => simp at hbad
        | true =>
          cases r with
          | ok u => simp at hbad
          | error e =>
            simp only [Except.error.injEq] at hbad
            exact hshape e a3 hr (by rw [hbad])

/-- C9 witness: the very first access after construction never raises the
`TypeError` of a comparison against `None`. -/
theorem token_never_compares_none_witness :
    AccessToken.token { subscription_key := "k" } 0 ⟨200, "t", none⟩ ≠
      .error .typeError :=
  token_never_compares_none { subscription_key := "k" }
    (AccessToken.Reachable.init "k") 0 ⟨200, "t", none⟩

/-- C2: `break_sentences` raises an invalid-argument `ValueError` for every
text longer than 10000 characters, before any network call (the error does
not depend on the server's reply); for text within the limit it returns the
slices of the text at the server-returned lengths, and when those lengths
sum to the text's length the returned slices partition the original text
exactly (their concatenation is the text, one slice per length); in
particular text `"Hi. Bye."` with lengths `[3, 5]` yields
`["Hi.", " Bye."]`. -/
theorem break_sentences_spec (text : List Char) (lengths : List Nat) :
    (10000 < text.length →
      Translator.break_sentences text lengths =
        .error (.valueError "The text maximum length is 10000 characters")) ∧
    (text.length ≤ 10000 → lengths.sum = text.length →
      ∃ r, Translator.break_sentences text lengths = .ok r ∧
        r.length = lengths.length ∧ r.flatten = text) ∧
    Translator.break_sentences "Hi. Bye.".data [3, 5] =
      .ok ["Hi.".data, " Bye.".data] := by
  refine ⟨?_, ?_, by rfl⟩
  · intro h
    simp [Translator.break_sentences, h]
  · intro h hsum
    have hok : Translator.break_sentences text lengths =
        .ok (Translator.sliceLoop text 0 lengths) := by
      simp [Translator.break_sentences, Nat.not_lt.mpr h]
    refine ⟨_, hok, sliceLoop_length text lengths 0, ?_⟩
    rw [sliceLoop_flatten, List.drop_zero, hsum, List.take_length]

/-- C2 witness: the concrete `"Hi. Bye."` / `[3, 5]` partition, obtained by
instantiating the theorem. -/
theorem break_sentences_spec_witness :
    ∃ r, Translator.break_sentences "Hi. Bye.".data [3, 5] = .ok r ∧
      r.length = ([3, 5] : List Nat).length ∧ r.flatten = "Hi. Bye.".data :=
  (break_sentences_spec "Hi. Bye.".data [3, 5]).2.1 (by decide) (by decide)

/-- C10: for every in-limit text and every list of non-negative
server-returned lengths — including lists whose sum exceeds or falls short
of the text's length — the slicing loop completes without error, returns
exactly one substring per length entry, and the concatenation of the
returned substrings is the prefix `text[0 : min(len(text), sum(lengths))]`
(overrunning lengths produce empty trailing substrings rather than a
failure). -/
theorem break_sentences_total (text : List Char) (lengths : List Nat)
    (h : text.length ≤ 10000) :
    ∃ r, Translator.break_sentences text lengths = .ok r ∧
      r.length = lengths.length ∧
      r.flatten = text.take (min text.length lengths.sum) := by
  have hok : Translator.break_sentences text lengths =
      .ok (Translator.sliceLoop text 0 lengths) := by
    simp [Translator.break_sentences, Nat.not_lt.mpr h]
  refine ⟨_, hok, sliceLoop_length text lengths 0, ?_⟩
  rw [sliceLoop_flatten, List.drop_zero, ← take_min]

/-- C10 witness: `"abc"` with overrunning lengths `[2, 5]` still yields two
slices whose concatenation is the whole 3-character text. -/
theorem break_sentences_total_witness :
    ∃ r, Translator.break_sentences "abc".data [2, 5] = .ok r ∧
      r.length = ([2, 5] : List Nat).length ∧
      r.flatten = "abc".data.take (min "abc".data.length ([2, 5] : List Nat).sum) :=
  break_sentences_total "abc".data [2, 5] (by decide)

theorem tag_prefixes_exclusive (s : List Char)
    (h : ("TranslateApiException".data).isPrefixOf s = true) :
    ("ArgumentOutOfRangeException".data).isPrefixOf s = false := by
  rw [List.isPrefixOf_iff_prefix] at h
  rw [Bool.eq_false_iff]
  intro hA
  rw [List.isPrefixOf_iff_prefix] at hA
  rcases List.prefix_or_prefix_of_prefix hA h with hc | hc <;>
    exact absurd (List.isPrefixOf_iff_prefix.mpr hc) (by decide)

/-- C4: response normalization.  A decoded JSON body that is a string
beginning with `"ArgumentOutOfRangeException"` raises
`ArgumentOutOfRangeException` and one beginning with
`"TranslateApiException"` raises `TranslateApiException`, in each case with
the tag text (`"Tag: "`) stripped from the message; in particular the body
`"TranslateApiException: bad request"` raises `TranslateApiException` with
message `"bad request"`; every other decoded value — a string with neither
prefix, or any non-string value — is returned as-is. -/
theorem make_response_normalization :
    (∀ s : List Char,
      (("ArgumentOutOfRangeException".data).isPrefixOf s = true →
        Translator.make_response (.str s) =
          .error (.argumentOutOfRangeException (argumentOutOfRangeMessage s))) ∧
      (("TranslateApiException".data).isPrefixOf s = true →
        Translator.make_response (.str s) =
          .error (.translateApiException (translateApiMessage s))) ∧
      (("ArgumentOutOfRangeException".data).isPrefixOf s = false →
        ("TranslateApiException".data).isPrefixOf s = false →
        Translator.make_response (.str s) = .ok (.str s))) ∧
    Translator.make_response (.str "TranslateApiException: bad request".data) =
      .error (.translateApiException "bad request".data) ∧
    (∀ d : JsonData, (∀ s, d ≠ .str s) → Translator.make_response d = .ok d) := by
  refine ⟨fun s => ⟨?_, ?_, ?_⟩, ?_, ?_⟩
  · intro h
    simp [Translator.make_response, h]
  · intro h
    simp [Translator.make_response, h, tag_prefixes_exclusive s h]
  · intro h1 h2
    simp [Translator.make_response, h1, h2]
  · rfl
  · intro d hd
    cases d with
    | str s => exact absurd rfl (hd s)
    | list xs => rfl
    | obj kvs => rfl
    | num n => rfl
    | bool b => rfl
    | null => rfl

/-- C4 witness: the theorem instantiated at a tag-prefixed body, a plain
string body, and a numeric body. -/
theorem make_response_normalization_witness :
    Translator.make_response (.str "ArgumentOutOfRangeException: oops".data) =
      .error (.argumentOutOfRangeException
        (argumentOutOfRangeMessage "ArgumentOutOfRangeException: oops".data)) ∧
    Translator.make_response (.str "hello".data) = .ok (.str "hello".data) ∧
    Translator.make_response (.num 3) = .ok (.num 3) :=
  ⟨(make_response_normalization.1 "ArgumentOutOfRangeException: oops".data).1
      (by decide),
   (make_response_normalization.1 "hello".data).2.2 (by decide) (by decide),
   make_response_normalization.2.2 (.num 3) (fun s h => JsonData.noConfusion h)⟩

theorem _translate_error_iff (action : String) (tp : List (String × PVal))
    (lang_from lang_to : Option String) (ct cat : String) :
    (∃ e, Translator._translate action tp lang_from lang_to ct cat = .error e) ↔
      (pyFalsy lang_to = true ∨ ¬(ct = "text/plain" ∨ ct = "text/html")) := by
  by_cases h1 : pyFalsy lang_to = true <;>
    by_cases h2 : ct = "text/plain" ∨ ct = "text/html" <;>
      simp [Translator._translate, h1, h2]

/-- C6: each of `translate`, `translate_array` and `translate_array2` raises
an invalid-argument `ValueError` before any network request exactly when
`lang_to` is unset/empty (falsy) or `contenttype` is not one of
`text/plain` / `text/html`; when both conditions hold the request
parameters are built and the call proceeds (no error); in particular
`translate("hello", lang_to="")` fails with the invalid-argument error. -/
theorem translate_requires_lang_to (text : String) (texts : List String)
    (lang_from lang_to : Option String) (ct cat : String) :
    ((∃ e, Translator.translate text lang_from lang_to ct cat = .error e) ↔
      (pyFalsy lang_to = true ∨ ¬(ct = "text/plain" ∨ ct = "text/html"))) ∧
    ((∃ e, Translator.translate_array texts lang_from lang_to ct cat = .error e) ↔
      (pyFalsy lang_to = true ∨ ¬(ct = "text/plain" ∨ ct = "text/html"))) ∧
    ((∃ e, Translator.translate_array2 texts lang_from lang_to ct cat = .error e) ↔
      (pyFalsy lang_to = true ∨ ¬(ct = "text/plain" ∨ ct = "text/html"))) ∧
    Translator.translate "hello" none (some "") "text/plain" "general" =
      .error (.valueError "lang_to parameter is required") :=
  ⟨_translate_error_iff "Translate" [("text", .str text)] lang_from lang_to ct cat,
   _translate_error_iff "TranslateArray" [("texts", .str (jsonDumps texts))]
     lang_from lang_to ct cat,
   _translate_error_iff "TranslateArray2" [("texts", .str (jsonDumps texts))]
     lang_from lang_to ct cat,
   rfl⟩

theorem add_translation_rating_cases (text_orig text_trans lf lt u cat : String)
    (rr : PyNum) (h1 : text_orig.length ≤ 1000) (h2 : text_trans.length ≤ 2000) :
    (¬(-10 < rr.val ∧ rr.val < 10) ∨ rr.isInt = false →
      Translator.add_translation text_orig text_trans lf lt u rr
          "text/plain" cat none =
        .error (.valueError "Raiting must be an integer value between -10 and 10")) ∧
    ((-10 < rr.val ∧ rr.val < 10) → rr.isInt = true →
      ∃ p, Translator.add_translation text_orig text_trans lf lt u rr
          "text/plain" cat none = .ok p) := by
  have hct : ¬¬("text/plain" = "text/plain" ∨ "text/plain" = "text/html") := by
    simp
  constructor
  · intro hc
    unfold Translator.add_translation
    rw [if_neg (Nat.not_lt.mpr h1), if_neg (Nat.not_lt.mpr h2), if_neg hct,
      if_pos hc]
  · intro hc hi
    have hcond : ¬(¬(-10 < rr.val ∧ rr.val < 10) ∨ rr.isInt = false) := by
      push_neg
      exact ⟨hc, by simp [hi]⟩
    unfold Translator.add_translation
    rw [if_neg (Nat.not_lt.mpr h1), if_neg (Nat.not_lt.mpr h2), if_neg hct,
      if_neg hcond]
    exact ⟨_, rfl⟩

/-- C7: `add_translation` rating validation.  With the text lengths and the
content type valid, the call raises an invalid-argument `ValueError` exactly
when the rating is not an integer strictly between -10 and 10; the integer
ratings 9 and -9 pass validation (the parameters are constructed) while 10
and -10 are rejected. -/
theorem add_translation_rating (text_orig text_trans lf lt u cat : String)
    (r : PyNum) (h1 : text_orig.length ≤ 1000) (h2 : text_trans.length ≤ 2000) :
    ((∃ e, Translator.add_translation text_orig text_trans lf lt u r
        "text/plain" cat none = .error e) ↔
      ¬(r.isInt = true ∧ -10 < r.val ∧ r.val < 10)) ∧
    (∃ p, Translator.add_translation text_orig text_trans lf lt u (.int 9)
        "text/plain" cat none = .ok p) ∧
    (∃ p, Translator.add_translation text_orig text_trans lf lt u (.int (-9))
        "text/plain" cat none = .ok p) ∧
    (∃ e, Translator.add_translation text_orig text_trans lf lt u (.int 10)
        "text/plain" cat none = .error e) ∧
    (∃ e, Translator.add_translation text_orig text_trans lf lt u (.int (-10))
        "text/plain" cat none = .error e) := by
  refine ⟨?_, ?_, ?_, ?_, ?_⟩
  · constructor
    · rintro ⟨e, he⟩ hand
      obtain ⟨p, hp⟩ :=
        (add_translation_rating_cases text_orig text_trans lf lt u cat r h1 h2).2
          hand.2 hand.1
      rw [hp] at he
      cases he
    · intro hn
      have hc : ¬(-10 < r.val ∧ r.val < 10) ∨ r.isInt = false := by
        by_cases hi : r.isInt = true
        · by_cases hb : (-10 < r.val ∧ r.val < 10)
          · exact absurd ⟨hi, hb.1, hb.2⟩ hn
          · exact Or.inl hb
        · exact Or.inr (Bool.not_eq_true _ ▸ hi)
      exact ⟨_, (add_translation_rating_cases text_orig text_trans lf lt u cat
        r h1 h2).1 hc⟩
  · exact (add_translation_rating_cases text_orig text_trans lf lt u cat
      (.int 9) h1 h2).2 (by norm_num [PyNum.val]) rfl
  · exact (add_translation_rating_cases text_orig text_trans lf lt u cat
      (.int (-9)) h1 h2).2 (by norm_num [PyNum.val]) rfl
  · exact ⟨_, (add_translation_rating_cases text_orig text_trans lf lt u cat
      (.int 10) h1 h2).1 (Or.inl (by norm_num [PyNum.val]))⟩
  · exact ⟨_, (add_translation_rating_cases text_orig text_trans lf lt u cat
      (.int (-10)) h1 h2).1 (Or.inl (by norm_num [PyNum.val]))⟩

/-- C7 witness: with valid texts and content type, `rating=9` constructs the
request parameters. -/
theorem add_translation_rating_witness :
    ∃ p, Translator.add_translation "a" "b" "en" "ru" "u" (.int 9)
        "text/plain" "general" none = .ok p :=
  (add_translation_rating "a" "b" "en" "ru" "u" "general" (.int 9)
    (by decide) (by decide)).2.1

/-- C3 (code bug): `speak_to_file` with a string (file path) destination
opens (and truncates) the file but never writes the audio bytes to it: the
`with open(file, 'wb'):` statement does not bind the handle, so
`file.write(resp.content)` is an attribute lookup on the string itself and
raises `AttributeError`.  A destination with a `write` method receives the
bytes; any other destination raises the invalid-argument `ValueError`. -/
theorem speak_to_file_path_bug :
    Translator.speak_to_file (.path "out.wav") [1, 2, 3] =
      (.error .attributeError, ["out.wav"], []) ∧
    Translator.speak_to_file (.sink 0) [1, 2, 3] =
      (.ok (), [], [(0, [1, 2, 3])]) ∧
    Translator.speak_to_file .other [1, 2, 3] =
      (.error (.valueError "Expected filepath or a file-like object"), [], []) :=
  ⟨rfl, rfl, rfl⟩

end Mstranslator
